import Mathlib

/-!
Verification development for the pymavlink bridge of socket_viewer
(`src/pymavlink_bridge.py`).

The Python program is shallowly embedded: the mutable `PymavlinkBridge`
object becomes the `Bridge` structure, each method becomes a pure Lean
function that takes the bridge (and the clock readings the method samples
via `time.time()` / `time.monotonic()`) and returns the updated bridge
together with whatever the method emits.  Python floats are modelled as
rationals, `None`-able values as `Option`, raised exceptions as `Except`.
Side effects on stdout (`emit` / `log`) that carry command results are
modelled as an explicit event list; telemetry snapshots and diagnostic log
lines that no theorem below mentions are not traced.
-/

namespace SocketViewer

/-- Result of looking a value up in a JSON payload dict, as seen by
`float()` conversion: the key can be missing (or bound to `None`), bound
to a numeric value (or numeric string) with rational value `q`, or bound
to a value on which `float()` raises. -/
inductive PyNum where
  | absent
  | num (q : ℚ)
  | invalid
deriving DecidableEq, Repr

/-- Models `PymavlinkBridge._safe_float`: `None` stays `None`, a
convertible value yields its float, a `TypeError`/`ValueError` is caught
and yields `None`. -/
def safe_float : PyNum → Option ℚ
  | PyNum.num q => some q
  | _ => none

/-- Models Python `int()` truncation toward zero on a float value. -/
def pytrunc (q : ℚ) : ℤ := Int.tdiv q.num (q.den : ℤ)

/-- Models Python `str.upper()` (ASCII case mapping, as used on mode
names). -/
def pyUpper (s : String) : String := String.mk (s.data.map Char.toUpper)

/-- Whitespace characters stripped by Python `str.strip()`. -/
def pyStripChars : List Char := [' ', '\t', '\n', '\x0d', '\x0b', '\x0c']

/-- Models Python `str.strip()`. -/
def pyStrip (s : String) : String :=
  String.mk (((s.data.dropWhile (fun c => pyStripChars.contains c)).reverse.dropWhile
    (fun c => pyStripChars.contains c)).reverse)

/-- The `self.state` dict of `PymavlinkBridge.__init__`, with one field
per key.  Raw-protocol integers are converted before storage, so position
fields hold rationals; timestamps are millisecond integers. -/
structure VehicleState where
  lat : Option ℚ
  lon : Option ℚ
  alt : Option ℚ
  relative_alt : Option ℚ
  gps_fix_type : Option ℤ
  satellites_visible : Option ℤ
  hdop : Option ℚ
  baro_alt : Option ℚ
  heading : Option ℚ
  climb : Option ℚ
  last_slam_timestamp : Option ℤ
  last_slam_host_timestamp : Option ℤ
  last_slam_delta_ms : Option ℤ
  last_gps_host_timestamp : Option ℤ
  last_gps_vehicle_timestamp : Option ℤ
  last_gps_vehicle_skew_ms : Option ℤ
  last_log_delta_ms : Option ℤ
  armed : Bool
  ready : Bool
  status : String
  system_status : String
  mode : String
  mode_id : Option ℤ
  system_id : Option ℤ
  component_id : Option ℤ
  statusTimestamp : Option ℤ
deriving DecidableEq, Repr

/-- The `self.latest_slam` dict. -/
structure SlamSample where
  timestamp : Option ℤ
  x : Option ℚ
  y : Option ℚ
  z : Option ℚ
  qw : Option ℚ
  qx : Option ℚ
  qy : Option ℚ
  qz : Option ℚ
deriving DecidableEq, Repr

/-- The `self.latest_mav` dict. -/
structure MavSample where
  timestamp : Option ℤ
  lat : Option ℚ
  lon : Option ℚ
  alt : Option ℚ
  rel : Option ℚ
deriving DecidableEq, Repr

/-- A CSV cell value as appended by `append_log_row`: `None`, an integer
timestamp, or a float. -/
inductive Cell where
  | none
  | int (n : ℤ)
  | num (q : ℚ)
deriving DecidableEq, Repr

/-- The mutable fields of `PymavlinkBridge` that the claims concern
(`connection_string`, `master` and the queue are the link/transport
collaborators and are represented where needed by `ExecEnv`). -/
structure Bridge where
  state : VehicleState
  debug_timing : Bool
  vehicle_boot_offset : Option ℤ
  last_vehicle_boot_ms : Option ℤ
  status_hold_until : ℚ
  logging_active : Bool
  csv_rows : List (List Cell)
  latest_slam : SlamSample
  latest_mav : MavSample
deriving DecidableEq, Repr

/-- Initial `self.state` as built in `__init__`. -/
def initState : VehicleState where
  lat := none
  lon := none
  alt := none
  relative_alt := none
  gps_fix_type := none
  satellites_visible := none
  hdop := none
  baro_alt := none
  heading := none
  climb := none
  last_slam_timestamp := none
  last_slam_host_timestamp := none
  last_slam_delta_ms := none
  last_gps_host_timestamp := none
  last_gps_vehicle_timestamp := none
  last_gps_vehicle_skew_ms := none
  last_log_delta_ms := none
  armed := false
  ready := false
  status := "Idle"
  system_status := "Unknown"
  mode := "Unknown"
  mode_id := none
  system_id := none
  component_id := none
  statusTimestamp := none

/-- Initial bridge as built in `__init__` (with the default
`PYMAVLINK_DEBUG_TIMING=0`). -/
def initBridge : Bridge where
  state := initState
  debug_timing := false
  vehicle_boot_offset := none
  last_vehicle_boot_ms := none
  status_hold_until := 0
  logging_active := false
  csv_rows := []
  latest_slam := ⟨none, none, none, none, none, none, none, none⟩
  latest_mav := ⟨none, none, none, none, none⟩

/-- Default `PYMAVLINK_STATUS_HOLD_SECONDS`. -/
def STATUS_HOLD_SECONDS : ℚ := 4

/-- Models `PymavlinkBridge.update_status`: unconditionally overwrite
`status` and `statusTimestamp` and push the hold expiry to
`time.monotonic() + hold`.  `now_ms` is `int(time.time() * 1000)` and
`mono` is `time.monotonic()` at the call. -/
def update_status (b : Bridge) (text : String) (hold_seconds : Option ℚ)
    (now_ms : ℤ) (mono : ℚ) : Bridge :=
  let hold := hold_seconds.getD STATUS_HOLD_SECONDS
  { b with
    state := { b.state with status := text, statusTimestamp := some now_ms },
    status_hold_until := mono + hold }

/-- Names of the `MAV_STATE` enum entries, as produced by
`mavutil.mavlink.enums["MAV_STATE"][...].name` with the
`str(system_status)` fallback for values outside the enum. -/
def mavStateName : ℕ → String
  | 0 => "MAV_STATE_UNINIT"
  | 1 => "MAV_STATE_BOOT"
  | 2 => "MAV_STATE_CALIBRATING"
  | 3 => "MAV_STATE_STANDBY"
  | 4 => "MAV_STATE_ACTIVE"
  | 5 => "MAV_STATE_CRITICAL"
  | 6 => "MAV_STATE_EMERGENCY"
  | 7 => "MAV_STATE_POWEROFF"
  | 8 => "MAV_STATE_FLIGHT_TERMINATION"
  | n => toString n

/-- The decoded MAVLink messages `handle_message` inspects.  Fields read
with `getattr(msg, ..., None)` are `Option`s; `base_mode` defaults to 0.
`mode_text` carries the result of the library call
`mavutil.mode_string_v10(msg)` (`""` standing for a falsy result). -/
inductive MavMessage where
  | heartbeat (base_mode : ℕ) (system_status : Option ℕ) (mode_text : String)
      (custom_mode : Option ℤ) (src_system : ℤ) (src_component : ℤ)
  | global_position_int (lat lon alt relative_alt : Option ℤ) (time_boot_ms : Option ℤ)
  | gps_raw_int (fix_type satellites_visible eph : Option ℤ)
  | vfr_hud (heading alt climb : PyNum)

/-- Models `PymavlinkBridge.handle_message`.  `now_ms` is
`int(time.time() * 1000)` and `mono` is `time.monotonic()` during the
call.  The `emit_state()` telemetry side effect is not traced. -/
def handle_message (b : Bridge) (msg : MavMessage) (now_ms : ℤ) (mono : ℚ) : Bridge :=
  match msg with
  | MavMessage.heartbeat base_mode system_status mode_text custom_mode src_sys src_comp =>
    let st := b.state
    let st := { st with
      armed := (base_mode &&& 128) != 0,
      ready := (system_status == some 3 || system_status == some 4) }
    let st :=
      match system_status with
      | some ss =>
        let name := mavStateName ss
        let st := { st with system_status := name }
        if b.status_hold_until ≤ mono then
          { st with status := name, statusTimestamp := some now_ms }
        else st
      | none => st
    let st := { st with
      mode := if mode_text = "" then "UNKNOWN" else mode_text,
      mode_id := custom_mode,
      system_id := some src_sys,
      component_id := some src_comp }
    { b with state := st }
  | MavMessage.global_position_int lat lon alt rel tb =>
    let st := { b.state with
      lat := lat.map (fun v => (v : ℚ) / 10 ^ 7),
      lon := lon.map (fun v => (v : ℚ) / 10 ^ 7),
      alt := alt.map (fun v => (v : ℚ) / 1000),
      relative_alt := rel.map (fun v => (v : ℚ) / 1000) }
    match tb with
    | some vehicle_boot =>
      let offset : ℤ :=
        match b.vehicle_boot_offset, b.last_vehicle_boot_ms with
        | some off, some prev =>
          if vehicle_boot < prev then now_ms - vehicle_boot else off
        | _, _ => now_ms - vehicle_boot
      let skew : ℤ := now_ms - (offset + vehicle_boot)
      let st := { st with
        last_gps_host_timestamp := some now_ms,
        last_gps_vehicle_timestamp := some (vehicle_boot + offset),
        last_gps_vehicle_skew_ms := some skew }
      { b with
        state := st,
        vehicle_boot_offset := some offset,
        last_vehicle_boot_ms := some vehicle_boot,
        latest_mav :=
          ⟨some now_ms, st.lat, st.lon, st.alt, st.relative_alt⟩ }
    | none =>
      let st := { st with
        last_gps_host_timestamp := some now_ms,
        last_gps_vehicle_timestamp := none,
        last_gps_vehicle_skew_ms := none }
      { b with
        state := st,
        latest_mav :=
          ⟨some now_ms, st.lat, st.lon, st.alt, st.relative_alt⟩ }
  | MavMessage.gps_raw_int fix_type sats eph =>
    let hdop : Option ℚ :=
      match eph with
      | some e => if e = 65535 then none else some ((e : ℚ) / 100)
      | none => none
    { b with state := { b.state with
        gps_fix_type := fix_type,
        satellites_visible := sats,
        hdop := hdop } }
  | MavMessage.vfr_hud heading alt climb =>
    { b with state := { b.state with
        heading := safe_float heading,
        baro_alt := safe_float alt,
        climb := safe_float climb } }

/-- A `slam_pose` command's `data` dict, each field as `payload.get`
followed by `float()` sees it. -/
structure SlamPayload where
  timestamp : PyNum
  x : PyNum
  y : PyNum
  z : PyNum
  qw : PyNum
  qx : PyNum
  qy : PyNum
  qz : PyNum
deriving DecidableEq, Repr

/-- Conversion of an optional integer to a CSV cell. -/
def cellOfOptInt : Option ℤ → Cell
  | some n => Cell.int n
  | none => Cell.none

/-- Conversion of an optional float to a CSV cell. -/
def cellOfOptNum : Option ℚ → Cell
  | some q => Cell.num q
  | none => Cell.none

/-- Models `PymavlinkBridge.append_log_row`: requires a complete latest
SLAM sample, stores the log/SLAM clock delta and appends one joined row
pairing the SLAM sample with the most recently stored MAVLink position
sample.  `now_ms` is `int(time.time() * 1000)`. -/
def append_log_row (b : Bridge) (now_ms : ℤ) : Bridge :=
  match b.latest_slam.timestamp, b.latest_slam.x, b.latest_slam.y, b.latest_slam.z with
  | some ts, some x, some y, some z =>
    let log_time := now_ms
    let b := { b with state := { b.state with last_log_delta_ms := some (log_time - ts) } }
    let row : List Cell :=
      [Cell.int log_time, Cell.int ts, Cell.num x, Cell.num y, Cell.num z,
       cellOfOptInt b.latest_mav.timestamp, cellOfOptNum b.latest_mav.lat,
       cellOfOptNum b.latest_mav.lon, cellOfOptNum b.latest_mav.alt,
       cellOfOptNum b.latest_mav.rel]
    { b with csv_rows := b.csv_rows ++ [row] }
  | _, _, _, _ => b

/-- Models `PymavlinkBridge.store_slam_pose`.  A falsy payload returns at
once.  The externally supplied timestamp is truncated to an integer and,
when below `1e12`, scaled from seconds to milliseconds; a missing
timestamp falls back to the host clock unscaled.  A sample whose x/y/z
does not resolve to floats is dropped with no state change; otherwise the
diagnostic fields and the latest SLAM sample are replaced and, while
recording is active, a row append is attempted.  `now_ms` is
`int(time.time() * 1000)`. -/
def store_slam_pose (b : Bridge) (payload : Option SlamPayload) (now_ms : ℤ) : Bridge :=
  match payload with
  | none => b
  | some p =>
    let timestamp : ℤ :=
      match safe_float p.timestamp with
      | none => now_ms
      | some q =>
        let ti := pytrunc q
        if ti < 10 ^ 12 then ti * 1000 else ti
    match safe_float p.x, safe_float p.y, safe_float p.z with
    | some x, some y, some z =>
      let delta := now_ms - timestamp
      let b := { b with state := { b.state with
        last_slam_timestamp := some timestamp,
        last_slam_host_timestamp := some now_ms,
        last_slam_delta_ms := some delta } }
      let b := { b with latest_slam :=
        ⟨some timestamp, some x, some y, some z,
         safe_float p.qw, safe_float p.qx, safe_float p.qy, safe_float p.qz⟩ }
      if b.logging_active then append_log_row b now_ms else b
    | _, _, _ => b

/-- Decimal digits of the fractional part of a rational in `[0, 1)`,
fuel-bounded. -/
def fracDigits : ℕ → ℚ → List Char
  | 0, _ => []
  | fuel + 1, q =>
    if q = 0 then []
    else
      let q10 := q * 10
      let d := pytrunc q10
      Char.ofNat (48 + d.toNat) :: fracDigits fuel (q10 - (d : ℚ))

/-- Decimal rendering of a float cell, modelling Python `str()` on the
decimally exact float values that reach `csv.writer` here (IEEE-754
shortest-repr rounding of inexact values is not modelled). -/
def pyFloatStr (q : ℚ) : String :=
  let sgn := if q < 0 then "-" else ""
  let a := if q < 0 then -q else q
  let ip := pytrunc a
  let ds := fracDigits 64 (a - (ip : ℚ))
  sgn ++ toString ip ++ "." ++ (if ds.isEmpty then "0" else String.mk ds)

/-- String form of one CSV cell, as `csv.writer` renders the Python
values (`None` becomes the empty cell). -/
def cellStr : Cell → String
  | Cell.none => ""
  | Cell.int n => toString n
  | Cell.num q => pyFloatStr q

/-- Does QUOTE_MINIMAL quoting apply to this field? -/
def csvNeedsQuote (s : String) : Bool :=
  s.data.any (fun c => c == ',' || c == '"' || c == '\x0d' || c == '\n')

/-- One CSV field under QUOTE_MINIMAL. -/
def csvQuote (s : String) : String :=
  if csvNeedsQuote s then
    "\"" ++ String.join (s.data.map (fun c => if c == '"' then "\"\"" else String.singleton c)) ++ "\""
  else s

/-- One CSV record with the `csv` module's default `\r\n` terminator. -/
def csvLine (cells : List String) : String :=
  String.intercalate "," (cells.map csvQuote) ++ "\x0d\n"

/-- A whole CSV table. -/
def csvTable (rows : List (List String)) : String :=
  String.join (rows.map csvLine)

/-- The fixed header row written by `stop_csv_logging`. -/
def csvHeader : List String :=
  ["timestamp_log", "timestamp_slam", "slam_x", "slam_y", "slam_z",
   "timestamp_mavlink", "gps_lat", "gps_lon", "gps_alt", "gps_alt_rel"]

/-- The standard base64 alphabet. -/
def b64Alphabet : List Char :=
  "ABCDEFGHIJKLMNOPQRSTUVWXYZabcdefghijklmnopqrstuvwxyz0123456789+/".data

/-- One base64 alphabet character. -/
def b64Char (n : ℕ) : Char := b64Alphabet.getD n 'A'

/-- Base64 encoding of a byte list, 3 bytes to 4 characters with `=`
padding, as `base64.b64encode` produces. -/
def b64Chars : List ℕ → List Char
  | [] => []
  | [a] => [b64Char (a / 4), b64Char (a % 4 * 16), '=', '=']
  | [a, b] => [b64Char (a / 4), b64Char (a % 4 * 16 + b / 16), b64Char (b % 16 * 4), '=']
  | a :: b :: c :: rest =>
    b64Char (a / 4) :: b64Char (a % 4 * 16 + b / 16) ::
      b64Char (b % 16 * 4 + c / 64) :: b64Char (c % 64) :: b64Chars rest

/-- Models `base64.b64encode(...).decode("ascii")` on a byte list. -/
def b64encode (bytes : List ℕ) : String := String.mk (b64Chars bytes)

/-- UTF-8 encoding of one character. -/
def utf8Char (c : Char) : List ℕ :=
  let n := c.toNat
  if n < 128 then [n]
  else if n < 2048 then [192 + n / 64, 128 + n % 64]
  else if n < 65536 then [224 + n / 4096, 128 + n / 64 % 64, 128 + n % 64]
  else [240 + n / 262144, 128 + n / 4096 % 64, 128 + n / 64 % 64, 128 + n % 64]

/-- Models `str.encode("utf-8")` as a byte list. -/
def utf8Bytes (s : String) : List ℕ := s.data.flatMap utf8Char

/-- Models `PymavlinkBridge.start_csv_logging`: unconditionally reset the
row buffer, activate recording, post the held status, and return the
`{"status": "started"}` payload. -/
def start_csv_logging (b : Bridge) (now_ms : ℤ) (mono : ℚ) :
    Bridge × List (String × String) :=
  let b := { b with csv_rows := [], logging_active := true }
  (update_status b "CSV: recording" (some 2) now_ms mono, [("status", "started")])

/-- The payload returned by a successful `stop_csv_logging`. -/
structure CsvStopOut where
  csv : String
  file_name : String
deriving DecidableEq, Repr

/-- Models `PymavlinkBridge.stop_csv_logging`: raises when recording is
not active (before any mutation); otherwise deactivates, serializes the
header plus the buffered rows, clears the buffer and returns the
base64-encoded table with a file name built from `int(time.time())`
(`now_s`). -/
def stop_csv_logging (b : Bridge) (now_s : ℤ) : Except String (Bridge × CsvStopOut) :=
  if b.logging_active then
    let csv_text := csvTable (csvHeader :: b.csv_rows.map (List.map cellStr))
    Except.ok
      ({ b with logging_active := false, csv_rows := [] },
       { csv := b64encode (utf8Bytes csv_text),
         file_name := "slam-log-" ++ toString now_s ++ ".csv" })
  else Except.error "CSV belum dimulai"

/-- Commands sent through the MAVLink connection (`self.master.mav`). -/
inductive LinkCmd where
  | doSetMode (base_mode : ℕ) (mode_id : ℕ)
  | setModeSend (base_mode : ℕ) (mode_id : ℕ)
  | armDisarm (param1 : ℕ)
  | navTakeoff (altitude : ℚ)
deriving DecidableEq, Repr

/-- Is this the `MAV_CMD_COMPONENT_ARM_DISARM` command sent by `arm`? -/
def LinkCmd.isArm : LinkCmd → Bool
  | LinkCmd.armDisarm _ => true
  | _ => false

/-- Is this the `MAV_CMD_NAV_TAKEOFF` command sent by
`send_takeoff_command`? -/
def LinkCmd.isTakeoffCmd : LinkCmd → Bool
  | LinkCmd.navTakeoff _ => true
  | _ => false

/-- The `MODE_EXTRA_FLAGS` table (numeric `MAV_MODE_FLAG` values:
GUIDED_ENABLED = 8, AUTO_ENABLED = 4, STABILIZE_ENABLED = 16). -/
def MODE_EXTRA_FLAGS : List (String × ℕ) :=
  [("GUIDED", 8), ("AUTO", 4), ("RTL", 4), ("STABILIZE", 16)]

/-- A single-quote wrapper for error messages. -/
def quoteStr (s : String) : String :=
  String.singleton (Char.ofNat 39) ++ s ++ String.singleton (Char.ofNat 39)

/-- Models `PymavlinkBridge.set_mode`: requires a live link, a non-empty
mode name present in the link's mode table, and sends both a
`MAV_CMD_DO_SET_MODE` command and a legacy `set_mode_send` with
`MAV_MODE_FLAG_CUSTOM_MODE_ENABLED` (1) plus any mode-specific extra
flag.  Returns the commands sent, or the raised error. -/
def set_mode (hasMaster : Bool) (mapping : List (String × ℕ)) (mode_name : String) :
    Except String (List LinkCmd) :=
  if !hasMaster then Except.error "Vehicle connection not ready"
  else if mode_name = "" then Except.error "Mode name is required"
  else
    match mapping.lookup mode_name with
    | none => Except.error ("Mode " ++ quoteStr mode_name ++ " not supported")
    | some mode_id =>
      let base_mode := Nat.lor 1 ((MODE_EXTRA_FLAGS.lookup mode_name).getD 0)
      Except.ok [LinkCmd.doSetMode base_mode mode_id, LinkCmd.setModeSend base_mode mode_id]

/-- The polling loop of `wait_until`, fuel-bounded: while the monotonic
clock `t` has not passed `end_time`, test the predicate (instantaneous)
and otherwise sleep `interval`.  Returns whether the predicate was seen
true, and the clock on exit.  The fuel is always chosen large enough that
exhaustion coincides with `t` having passed `end_time`. -/
def wait_until_go (p : ℚ → Bool) (end_time interval : ℚ) : ℕ → ℚ → Bool × ℚ
  | 0, t => (false, t)
  | fuel + 1, t =>
    if t ≤ end_time then
      if p t then (true, t)
      else wait_until_go p end_time interval fuel (t + interval)
    else (false, t)

/-- Enough fuel for a `wait_until` poll loop. -/
def wait_fuel (timeout interval : ℚ) : ℕ := (⌈timeout / interval⌉).toNat + 1

/-- Models `PymavlinkBridge.wait_until` with the state snapshot read by
the predicate given as a function of the monotonic clock (the state dict
is owned by the concurrent receive loop).  `false` means the
`TimeoutError` was raised. -/
def wait_until (p : ℚ → Bool) (timeout t0 interval : ℚ) : Bool × ℚ :=
  wait_until_go p (t0 + timeout) interval (wait_fuel timeout interval) t0

/-- The `TimeoutError` message raised by `wait_until`. -/
def timeoutMsg (description : String) : String :=
  "Timed out waiting for " ++ description

/-- Trailing-character strip, as `str.rstrip` with a single character. -/
def rstripChar (s : String) (c : Char) : String :=
  String.mk (s.data.reverse.dropWhile (fun ch => ch == c)).reverse

/-- Models `f"{altitude:.1f}".rstrip("0").rstrip(".")` for the positive
altitudes `takeoff_sequence` receives (round-half-even on the underlying
float is approximated by round-half-up on the rational). -/
def targetText (a : ℚ) : String :=
  let n := pytrunc (a * 10 + 1 / 2)
  let s := (if n < 0 then "-" else "") ++ toString (n.natAbs / 10) ++ "." ++ toString (n.natAbs % 10)
  rstripChar (rstripChar s '0') '.'

/-- External collaborators and clock readings available to one command
execution: the concurrently updated state snapshot as a function of the
monotonic clock, the link's presence and mode table, and the wall/
monotonic clocks at the start of the execution. -/
structure ExecEnv where
  stateAt : ℚ → VehicleState
  hasMaster : Bool
  modeMapping : List (String × ℕ)
  now_ms : ℤ
  now_s : ℤ
  mono : ℚ

/-- Outcome of `takeoff_sequence`: the raised error if any, every link
command sent before returning, the `update_status` calls made (text and
explicit hold), and the monotonic clock on exit. -/
structure TakeoffOut where
  result : Except String Unit
  cmds : List LinkCmd
  statuses : List (String × Option ℚ)
  t_end : ℚ

/-- Models `PymavlinkBridge.takeoff_sequence`: switch to GUIDED, then
wait (≤15 s) for mode GUIDED, wait (≤15 s) for readiness, arm and wait
(≤20 s) for the armed flag, send the takeoff command and wait (≤90 s) for
95 % of the target altitude; each wait polls every 0.5 s and raises a
`TimeoutError` that aborts the remaining steps. -/
def takeoff_sequence (env : ExecEnv) (altitude : ℚ) : TakeoffOut :=
  if !env.hasMaster then ⟨Except.error "Vehicle connection not ready", [], [], env.mono⟩
  else
    let st0 : List (String × Option ℚ) := [("TAKEOFF: switching to GUIDED", none)]
    match set_mode env.hasMaster env.modeMapping "GUIDED" with
    | Except.error e => ⟨Except.error e, [], st0, env.mono⟩
    | Except.ok cmds1 =>
      let w1 := wait_until (fun t => pyUpper (env.stateAt t).mode == "GUIDED") 15 env.mono (1 / 2)
      if !w1.1 then ⟨Except.error (timeoutMsg "mode GUIDED"), cmds1, st0, w1.2⟩
      else
        let st1 := st0 ++ [("TAKEOFF: waiting for vehicle ready", none)]
        let w2 := wait_until (fun t => (env.stateAt t).ready) 15 w1.2 (1 / 2)
        if !w2.1 then ⟨Except.error (timeoutMsg "vehicle ready"), cmds1, st1, w2.2⟩
        else
          let st2 := st1 ++ [("TAKEOFF: arming motors", none)]
          let cmds2 := cmds1 ++ [LinkCmd.armDisarm 1]
          let w3 := wait_until (fun t => (env.stateAt t).armed) 20 w2.2 (1 / 2)
          if !w3.1 then ⟨Except.error (timeoutMsg "vehicle arm"), cmds2, st2, w3.2⟩
          else
            let st3 := st2 ++ [("TAKEOFF: climbing to " ++ targetText altitude ++ " m", none)]
            let cmds3 := cmds2 ++ [LinkCmd.navTakeoff altitude]
            let w4 := wait_until
              (fun t => decide ((env.stateAt t).relative_alt.getD 0 ≥ altitude * (95 / 100)))
              90 w3.2 (1 / 2)
            if !w4.1 then ⟨Except.error (timeoutMsg "target altitude"), cmds3, st3, w4.2⟩
            else ⟨Except.ok (), cmds3, st3 ++ [("TAKEOFF: sequence complete", some 6)], w4.2⟩

/-- One command request, distinguished by its `"type"` tag with the
type-specific fields the handlers read. -/
inductive CommandPayload where
  | set_mode (mode : Option String)
  | takeoff (altitude : PyNum)
  | slam_pose (data : Option SlamPayload)
  | csv_start
  | csv_stop
  | other (tag : String)
deriving DecidableEq, Repr

/-- The `"type"` string of a request, as read by `execute_command`. -/
def typeTag : CommandPayload → String
  | CommandPayload.set_mode _ => "set_mode"
  | CommandPayload.takeoff _ => "takeoff"
  | CommandPayload.slam_pose _ => "slam_pose"
  | CommandPayload.csv_start => "csv_start"
  | CommandPayload.csv_stop => "csv_stop"
  | CommandPayload.other tag => tag

/-- The `result_type` dict lookup of `execute_command`: the result event
type for the command types that report one. -/
def result_type : CommandPayload → Option String
  | CommandPayload.set_mode _ => some "mode_result"
  | CommandPayload.takeoff _ => some "takeoff_result"
  | CommandPayload.csv_start => some "csv_start_result"
  | CommandPayload.csv_stop => some "csv_stop_result"
  | _ => none

/-- Outcome of `handle_command`: the bridge after the handler, the
returned payload or the raised error, the link commands sent and the
`update_status` calls made from a concurrently supervised sequence. -/
structure HandleOut where
  bridge : Bridge
  result : Except String (Option (List (String × String)))
  cmds : List LinkCmd
  statuses : List (String × Option ℚ)

/-- Models `PymavlinkBridge.handle_command`, dispatching on the request
type.  An unrecognized type falls through and returns `None`. -/
def handle_command (env : ExecEnv) (b : Bridge) (p : CommandPayload) : HandleOut :=
  match p with
  | CommandPayload.set_mode m =>
    let mode_name := pyUpper (pyStrip (m.getD ""))
    (match set_mode env.hasMaster env.modeMapping mode_name with
     | Except.ok cmds => ⟨b, Except.ok none, cmds, []⟩
     | Except.error e => ⟨b, Except.error e, [], []⟩)
  | CommandPayload.takeoff alt =>
    let altitude_value := (safe_float alt).getD 30
    let altitude_value := if 0 < altitude_value then altitude_value else 30
    let r := takeoff_sequence env altitude_value
    ⟨b, r.result.map (fun _ => none), r.cmds, r.statuses⟩
  | CommandPayload.slam_pose d =>
    ⟨store_slam_pose b d env.now_ms, Except.ok none, [], []⟩
  | CommandPayload.csv_start =>
    let r := start_csv_logging b env.now_ms env.mono
    ⟨r.1, Except.ok (some r.2), [], []⟩
  | CommandPayload.csv_stop =>
    (match stop_csv_logging b env.now_s with
     | Except.error e => ⟨b, Except.error e, [], []⟩
     | Except.ok r =>
       ⟨r.1, Except.ok (some [("csv", r.2.csv), ("file_name", r.2.file_name)]), [], []⟩)
  | CommandPayload.other _ => ⟨b, Except.ok none, [], []⟩

/-- A line emitted on stdout by `execute_command`: either one
`CommandResult` object or one log line. -/
inductive OutEvent where
  | result (rtype : String) (ok : Bool) (request_id : String)
      (payload : List (String × String)) (error : Option String)
  | logline (level : String) (message : String)
deriving DecidableEq, Repr

/-- Is this event a `CommandResult`? -/
def OutEvent.isResult : OutEvent → Bool
  | OutEvent.result _ _ _ _ _ => true
  | _ => false

/-- Everything observable from one `execute_command` run. -/
structure ExecOut where
  bridge : Bridge
  events : List OutEvent
  cmds : List LinkCmd
  statuses : List (String × Option ℚ)

/-- Models `PymavlinkBridge.execute_command`: run the handler; when the
request type maps to a result kind, emit exactly one `CommandResult` —
successful with the handler's dict payload merged in, or failed with the
caught exception's text; every caught exception also logs a line.
Request types outside the mapping emit no result. -/
def execute_command (env : ExecEnv) (b : Bridge) (request_id : String)
    (p : CommandPayload) : ExecOut :=
  let rt := result_type p
  let h := handle_command env b p
  match h.result with
  | Except.ok pay =>
    ⟨h.bridge,
     (match rt with
      | some r => [OutEvent.result r true request_id (pay.getD []) none]
      | none => []),
     h.cmds, h.statuses⟩
  | Except.error e =>
    ⟨h.bridge,
     (match rt with
      | some r => [OutEvent.result r false request_id [] (some e)]
      | none => []) ++
       [OutEvent.logline "error" ("Command " ++ typeTag p ++ " failed: " ++ e)],
     h.cmds, h.statuses⟩

/-- A fixed execution environment for concrete instantiations: the state
snapshot stays at its initial value, the link is up and its mode table
maps GUIDED to 4, and all clocks read zero. -/
def envA : ExecEnv := ⟨fun _ => initState, true, [("GUIDED", 4)], 0, 0, 0⟩

/-- A bridge with an active recording session and one buffered row. -/
def activeBridge : Bridge :=
  { initBridge with logging_active := true, csv_rows := [[Cell.int 1]] }

/-- A bridge with an active recording session and an empty buffer. -/
def activeEmptyBridge : Bridge := { initBridge with logging_active := true }

/-- A bridge that has already seen a GPS position report. -/
def offsetBridge : Bridge :=
  { initBridge with vehicle_boot_offset := some 100, last_vehicle_boot_ms := some 50 }

/-- A bridge whose state holds a previously reported latitude. -/
def latBridge : Bridge := { initBridge with state := { initState with lat := some 5 } }

/-- A pose payload whose x field does not convert to a float. -/
def rejectPayload : SlamPayload :=
  ⟨PyNum.num 1700000000, PyNum.invalid, PyNum.num 1, PyNum.num 2,
   PyNum.absent, PyNum.absent, PyNum.absent, PyNum.absent⟩

/-- A valid pose payload with a seconds-scale timestamp. -/
def posePayloadSec : SlamPayload :=
  ⟨PyNum.num 1700000000, PyNum.num 1, PyNum.num 2, PyNum.num 3,
   PyNum.absent, PyNum.absent, PyNum.absent, PyNum.absent⟩

/-- A valid pose payload with a milliseconds-scale timestamp. -/
def posePayloadMs : SlamPayload :=
  ⟨PyNum.num 1700000000000, PyNum.num 1, PyNum.num 2, PyNum.num 3,
   PyNum.absent, PyNum.absent, PyNum.absent, PyNum.absent⟩

/-- C2: for a HEARTBEAT message carrying a lifecycle status, the
displayed status string (and its timestamp) is overwritten with the
lifecycle-status name exactly when the monotonic clock is at or past the
status-hold expiry, and is left unchanged otherwise; `update_status`
unconditionally overwrites status and timestamp and sets the expiry to
now plus the hold duration. -/
theorem C2_status_hold_rule (b : Bridge) (base_mode : ℕ) (ss : ℕ) (mode_text : String)
    (custom_mode : Option ℤ) (src_sys src_comp : ℤ) (now_ms : ℤ) (mono : ℚ)
    (text : String) (hold : Option ℚ) (now2 : ℤ) (mono2 : ℚ) :
    ((handle_message b (MavMessage.heartbeat base_mode (some ss) mode_text custom_mode src_sys src_comp) now_ms mono).state.status
        = if b.status_hold_until ≤ mono then mavStateName ss else b.state.status)
    ∧ ((handle_message b (MavMessage.heartbeat base_mode (some ss) mode_text custom_mode src_sys src_comp) now_ms mono).state.statusTimestamp
        = if b.status_hold_until ≤ mono then some now_ms else b.state.statusTimestamp)
    ∧ (update_status b text hold now2 mono2).state.status = text
    ∧ (update_status b text hold now2 mono2).state.statusTimestamp = some now2
    ∧ (update_status b text hold now2 mono2).status_hold_until
        = mono2 + hold.getD STATUS_HOLD_SECONDS := by
  refine ⟨?_, ?_, rfl, rfl, rfl⟩ <;>
    by_cases h : b.status_hold_until ≤ mono <;>
      simp [handle_message, h]

/-- C4: a GLOBAL_POSITION_INT message stores latitude/longitude divided
by 1e7 and absolute/relative altitude divided by 1000; in particular raw
lat -74000000 becomes -7.4 degrees and raw relative_alt 1500 becomes
1.5 m. -/
theorem C4_gps_unit_conversion (b : Bridge) (lat lon alt rel : ℤ) (tb : Option ℤ)
    (now_ms : ℤ) (mono : ℚ) :
    ((handle_message b (MavMessage.global_position_int (some lat) (some lon) (some alt) (some rel) tb) now_ms mono).state.lat
        = some ((lat : ℚ) / 10 ^ 7)
    ∧ (handle_message b (MavMessage.global_position_int (some lat) (some lon) (some alt) (some rel) tb) now_ms mono).state.lon
        = some ((lon : ℚ) / 10 ^ 7)
    ∧ (handle_message b (MavMessage.global_position_int (some lat) (some lon) (some alt) (some rel) tb) now_ms mono).state.alt
        = some ((alt : ℚ) / 1000)
    ∧ (handle_message b (MavMessage.global_position_int (some lat) (some lon) (some alt) (some rel) tb) now_ms mono).state.relative_alt
        = some ((rel : ℚ) / 1000))
    ∧ ((handle_message initBridge (MavMessage.global_position_int (some (-74000000)) (some 0) (some 0) (some 1500) none) 0 0).state.lat
        = some (-7.4)
    ∧ (handle_message initBridge (MavMessage.global_position_int (some (-74000000)) (some 0) (some 0) (some 1500) none) 0 0).state.relative_alt
        = some 1.5) := by
  constructor
  · cases tb <;> exact ⟨rfl, rfl, rfl, rfl⟩
  · constructor <;> · show some _ = some _; norm_num

/-- C5 counterexample: starting a recording session while one is already
active does not fail — the command succeeds, reports a successful result
and replaces the buffer. -/
theorem C5_counterexample :
    activeBridge.logging_active = true
    ∧ (execute_command envA activeBridge "r5" CommandPayload.csv_start).events
        = [OutEvent.result "csv_start_result" true "r5" [("status", "started")] none]
    ∧ (execute_command envA activeBridge "r5" CommandPayload.csv_start).bridge.logging_active = true
    ∧ (execute_command envA activeBridge "r5" CommandPayload.csv_start).bridge.csv_rows = [] :=
  ⟨rfl, rfl, rfl, rfl⟩

/-- C5 amended: `start()` never fails; whether or not a session is
active it clears the row buffer, activates the session and reports a
successful result (starting while active replaces the buffered rows
rather than erroring). -/
theorem C5_start_always_replaces (env : ExecEnv) (b : Bridge) (rid : String) :
    (execute_command env b rid CommandPayload.csv_start).bridge.logging_active = true
    ∧ (execute_command env b rid CommandPayload.csv_start).bridge.csv_rows = []
    ∧ (execute_command env b rid CommandPayload.csv_start).events
        = [OutEvent.result "csv_start_result" true rid [("status", "started")] none] :=
  ⟨rfl, rfl, rfl⟩

/-- C7: a slam_pose payload whose x, y or z is missing or non-numeric is
rejected with no state change at all: the bridge — clock diagnostics,
latest pose sample and recorder buffer included — is exactly as before. -/
theorem C7_slam_reject_no_change (b : Bridge) (p : SlamPayload) (now_ms : ℤ)
    (h : safe_float p.x = none ∨ safe_float p.y = none ∨ safe_float p.z = none) :
    store_slam_pose b (some p) now_ms = b := by
  rcases hx : safe_float p.x with _ | x <;>
    rcases hy : safe_float p.y with _ | y <;>
      rcases hz : safe_float p.z with _ | z <;>
        simp_all [store_slam_pose]

/-- C7 witness: the reject payload has a non-numeric x and leaves the
initial bridge untouched. -/
theorem C7_slam_reject_no_change_witness :
    (safe_float rejectPayload.x = none ∨ safe_float rejectPayload.y = none
      ∨ safe_float rejectPayload.z = none)
    ∧ store_slam_pose initBridge (some rejectPayload) 5 = initBridge :=
  ⟨Or.inl rfl, C7_slam_reject_no_change initBridge rejectPayload 5 (Or.inl rfl)⟩

/-- C8 counterexample: with a previously stored latitude, a
GLOBAL_POSITION_INT message whose raw lat field is missing does not keep
the previous value — the field is cleared to absent. -/
theorem C8_counterexample :
    latBridge.state.lat = some 5
    ∧ (handle_message latBridge (MavMessage.global_position_int none (some 0) (some 0) (some 0) none) 0 0).state.lat = none
    ∧ (handle_message latBridge (MavMessage.global_position_int none (some 0) (some 0) (some 0) none) 0 0).state.lat
        ≠ latBridge.state.lat :=
  ⟨rfl, rfl, fun hcontra => Option.noConfusion hcontra⟩

/-- C8 amended: when a required numeric field of a GLOBAL_POSITION_INT
or VFR_HUD message is missing or non-numeric, the corresponding
VehicleState field is overwritten with the conversion result — absent
(None) on failure, never a spurious zero and never the old value — and
the remaining fields of the message are still applied independently. -/
theorem C8_missing_field_clears (b : Bridge) (lat lon alt rel tb : Option ℤ)
    (hh aa cc : PyNum) (now_ms : ℤ) (mono : ℚ) :
    ((handle_message b (MavMessage.global_position_int lat lon alt rel tb) now_ms mono).state.lat
        = lat.map (fun v => (v : ℚ) / 10 ^ 7)
    ∧ (handle_message b (MavMessage.global_position_int lat lon alt rel tb) now_ms mono).state.lon
        = lon.map (fun v => (v : ℚ) / 10 ^ 7)
    ∧ (handle_message b (MavMessage.global_position_int lat lon alt rel tb) now_ms mono).state.alt
        = alt.map (fun v => (v : ℚ) / 1000)
    ∧ (handle_message b (MavMessage.global_position_int lat lon alt rel tb) now_ms mono).state.relative_alt
        = rel.map (fun v => (v : ℚ) / 1000))
    ∧ ((handle_message b (MavMessage.vfr_hud hh aa cc) now_ms mono).state.heading = safe_float hh
    ∧ (handle_message b (MavMessage.vfr_hud hh aa cc) now_ms mono).state.baro_alt = safe_float aa
    ∧ (handle_message b (MavMessage.vfr_hud hh aa cc) now_ms mono).state.climb = safe_float cc) := by
  constructor
  · cases tb <;> exact ⟨rfl, rfl, rfl, rfl⟩
  · exact ⟨rfl, rfl, rfl⟩

/-- C9: for an accepted pose sample with a numeric timestamp, the stored
timestamp is the truncated payload value scaled by 1000 when it is below
10^12 (seconds heuristic) and unchanged when at or above 10^12. -/
theorem C9_pose_time_heuristic (b : Bridge) (p : SlamPayload) (ts x y z : ℚ) (now_ms : ℤ)
    (hts : safe_float p.timestamp = some ts)
    (hx : safe_float p.x = some x) (hy : safe_float p.y = some y)
    (hz : safe_float p.z = some z) :
    (store_slam_pose b (some p) now_ms).state.last_slam_timestamp
        = some (if pytrunc ts < 10 ^ 12 then pytrunc ts * 1000 else pytrunc ts)
    ∧ (store_slam_pose b (some p) now_ms).latest_slam.timestamp
        = some (if pytrunc ts < 10 ^ 12 then pytrunc ts * 1000 else pytrunc ts) := by
  simp only [store_slam_pose, hts, hx, hy, hz]
  split <;> simp [append_log_row]

/-- C9 witness: timestamp 1700000000 is normalized to 1700000000000 and
timestamp 1700000000000 is left unchanged. -/
theorem C9_pose_time_heuristic_witness :
    (store_slam_pose initBridge (some posePayloadSec) 99).state.last_slam_timestamp
        = some 1700000000000
    ∧ (store_slam_pose initBridge (some posePayloadMs) 99).state.last_slam_timestamp
        = some 1700000000000 := by
  constructor
  · have h := (C9_pose_time_heuristic initBridge posePayloadSec 1700000000 1 2 3 99
      rfl rfl rfl rfl).1
    rw [h]; decide
  · have h := (C9_pose_time_heuristic initBridge posePayloadMs 1700000000000 1 2 3 99
      rfl rfl rfl rfl).1
    rw [h]; decide

/-- C10: a slam_pose request emits no CommandResult at all — its type is
outside the result-type mapping, which covers exactly set_mode, takeoff,
csv_start and csv_stop. -/
theorem C10_slam_pose_emits_no_result (env : ExecEnv) (b : Bridge) (rid : String)
    (d : Option SlamPayload) (m : Option String) (a : PyNum) (tag : String) :
    result_type (CommandPayload.slam_pose d) = none
    ∧ (execute_command env b rid (CommandPayload.slam_pose d)).events.all
        (fun e => ! e.isResult) = true
    ∧ result_type (CommandPayload.set_mode m) = some "mode_result"
    ∧ result_type (CommandPayload.takeoff a) = some "takeoff_result"
    ∧ result_type CommandPayload.csv_start = some "csv_start_result"
    ∧ result_type CommandPayload.csv_stop = some "csv_stop_result"
    ∧ result_type (CommandPayload.other tag) = none :=
  ⟨rfl, rfl, rfl, rfl, rfl, rfl, rfl⟩

/-- C3: the vehicle-boot-clock estimator recomputes its offset as
host_now minus the device clock exactly on the first sample or when the
device clock decreased; otherwise the offset is kept, and the stored skew
is host_now minus (offset + device_clock).  The hypothesis links the two
estimator fields, which are always set together. -/
theorem C3_boot_clock_offset (b : Bridge) (lat lon alt rel : Option ℤ) (vb : ℤ)
    (now_ms : ℤ) (mono : ℚ)
    (hinv : b.vehicle_boot_offset.isSome = b.last_vehicle_boot_ms.isSome) :
    (b.last_vehicle_boot_ms = none →
      (handle_message b (MavMessage.global_position_int lat lon alt rel (some vb)) now_ms mono).vehicle_boot_offset
        = some (now_ms - vb))
    ∧ (∀ prev : ℤ, b.last_vehicle_boot_ms = some prev → vb < prev →
      (handle_message b (MavMessage.global_position_int lat lon alt rel (some vb)) now_ms mono).vehicle_boot_offset
        = some (now_ms - vb))
    ∧ (∀ prev : ℤ, b.last_vehicle_boot_ms = some prev → prev ≤ vb →
      (handle_message b (MavMessage.global_position_int lat lon alt rel (some vb)) now_ms mono).vehicle_boot_offset
        = b.vehicle_boot_offset)
    ∧ (handle_message b (MavMessage.global_position_int lat lon alt rel (some vb)) now_ms mono).last_vehicle_boot_ms
        = some vb
    ∧ (∀ off : ℤ,
      (handle_message b (MavMessage.global_position_int lat lon alt rel (some vb)) now_ms mono).vehicle_boot_offset
        = some off →
      (handle_message b (MavMessage.global_position_int lat lon alt rel (some vb)) now_ms mono).state.last_gps_vehicle_skew_ms
        = some (now_ms - (off + vb))) := by
  rcases ho : b.vehicle_boot_offset with _ | off₀ <;>
    rcases hl : b.last_vehicle_boot_ms with _ | prev₀
  · refine ⟨fun _ => ?_, fun prev hp hlt => ?_, fun prev hp hle => ?_, ?_, fun off hoff => ?_⟩
    · simp [handle_message, ho, hl]
    · exact Option.noConfusion hp
    · exact Option.noConfusion hp
    · simp [handle_message, ho, hl]
    · simp [handle_message, ho, hl] at hoff ⊢
      omega
  · rw [ho, hl] at hinv; exact absurd hinv (by simp)
  · rw [ho, hl] at hinv; exact absurd hinv (by simp)
  · refine ⟨fun hcontra => ?_, fun prev hp hlt => ?_, fun prev hp hle => ?_, ?_, fun off hoff => ?_⟩
    · exact Option.noConfusion hcontra
    · injection hp with hp; subst hp
      simp [handle_message, ho, hl, hlt]
    · injection hp with hp; subst hp
      have hnlt : ¬ vb < prev₀ := not_lt.mpr hle
      simp [handle_message, ho, hl, hnlt]
    · simp [handle_message, ho, hl]
    · by_cases hlt : vb < prev₀ <;>
        simp [handle_message, ho, hl, hlt] at hoff ⊢ <;> omega

/-- C3 witness: with a previous sample of 50 and stored offset 100, a
decreased device clock of 40 at host time 0 recomputes the offset to
-40, records the sample and stores skew 0. -/
theorem C3_boot_clock_offset_witness :
    (handle_message offsetBridge (MavMessage.global_position_int none none none none (some 40)) 0 0).vehicle_boot_offset
        = some (-40)
    ∧ (handle_message offsetBridge (MavMessage.global_position_int none none none none (some 40)) 0 0).last_vehicle_boot_ms
        = some 40
    ∧ (handle_message offsetBridge (MavMessage.global_position_int none none none none (some 40)) 0 0).state.last_gps_vehicle_skew_ms
        = some 0 := by
  have h := C3_boot_clock_offset offsetBridge none none none none 40 0 0 rfl
  have h1 : (handle_message offsetBridge (MavMessage.global_position_int none none none none (some 40)) 0 0).vehicle_boot_offset
      = some (-40) := by simpa using h.2.1 50 rfl (by decide)
  refine ⟨h1, h.2.2.2.1, ?_⟩
  have h2 := h.2.2.2.2 (-40) h1
  simpa using h2

/-- C6: stopping when no session is active raises the validation error
and leaves the whole bridge unchanged (only a failed result and a log
line are emitted); stopping when active deactivates, serializes the
fixed 10-column header plus the buffered rows, clears the buffer and
returns the base64-encoded table with a file name built from the export
instant. -/
theorem C6_stop_csv (env : ExecEnv) (b : Bridge) (rid : String) :
    (b.logging_active = false →
      (execute_command env b rid CommandPayload.csv_stop).bridge = b
      ∧ (execute_command env b rid CommandPayload.csv_stop).events
          = [OutEvent.result "csv_stop_result" false rid [] (some "CSV belum dimulai"),
             OutEvent.logline "error" "Command csv_stop failed: CSV belum dimulai"])
    ∧ (b.logging_active = true →
      stop_csv_logging b env.now_s = Except.ok
        ({ b with logging_active := false, csv_rows := [] },
         { csv := b64encode (utf8Bytes (csvTable (csvHeader :: b.csv_rows.map (List.map cellStr)))),
           file_name := "slam-log-" ++ toString env.now_s ++ ".csv" })) := by
  constructor
  · intro h
    constructor <;> simp [execute_command, handle_command, stop_csv_logging, h, typeTag, result_type]
  · intro h
    simp [stop_csv_logging, h]

/-- C6 witness: stopping the inactive initial bridge fails with the
validation error and no state change; stopping an active session with an
empty buffer succeeds with the header-only table. -/
theorem C6_stop_csv_witness :
    ((execute_command envA initBridge "r6" CommandPayload.csv_stop).bridge = initBridge
    ∧ (execute_command envA initBridge "r6" CommandPayload.csv_stop).events
        = [OutEvent.result "csv_stop_result" false "r6" [] (some "CSV belum dimulai"),
           OutEvent.logline "error" "Command csv_stop failed: CSV belum dimulai"])
    ∧ stop_csv_logging activeEmptyBridge envA.now_s = Except.ok
        ({ activeEmptyBridge with logging_active := false, csv_rows := [] },
         { csv := b64encode (utf8Bytes (csvTable (csvHeader :: activeEmptyBridge.csv_rows.map (List.map cellStr)))),
           file_name := "slam-log-" ++ toString envA.now_s ++ ".csv" }) :=
  ⟨(C6_stop_csv envA initBridge "r6").1 rfl,
   (C6_stop_csv envA activeEmptyBridge "r6x").2 rfl⟩

/-- A poll loop whose predicate is false throughout the window times
out, whatever the fuel. -/
theorem wait_until_go_false_of_never (p : ℚ → Bool) (end_time interval : ℚ)
    (hi : 0 ≤ interval) :
    ∀ (fuel : ℕ) (t : ℚ), (∀ u : ℚ, t ≤ u → u ≤ end_time → p u = false) →
      (wait_until_go p end_time interval fuel t).1 = false := by
  intro fuel
  induction fuel with
  | zero => intro t _; rfl
  | succ n ih =>
    intro t h
    by_cases ht : t ≤ end_time
    · have hp : p t = false := h t le_rfl ht
      simp only [wait_until_go, if_pos ht, hp, Bool.false_eq_true, if_false]
      exact ih (t + interval)
        (fun u hu1 hu2 => h u (le_trans (le_add_of_nonneg_right hi) hu1) hu2)
    · simp only [wait_until_go, if_neg ht]

/-- C1: when the link is up, GUIDED is in the mode table, and the mode
snapshot never reads GUIDED during the first wait's 15-second bound, the
takeoff command fails with the wait's timeout error reported as a failed
takeoff result, no arm and no takeoff command is ever sent through the
link, and the bridge is untouched. -/
theorem C1_takeoff_timeout (env : ExecEnv) (b : Bridge) (rid : String) (alt : PyNum)
    (gid : ℕ) (hm : env.hasMaster = true)
    (hg : env.modeMapping.lookup "GUIDED" = some gid)
    (hnever : ∀ t : ℚ, env.mono ≤ t → t ≤ env.mono + 15 →
      pyUpper (env.stateAt t).mode ≠ "GUIDED") :
    (OutEvent.result "takeoff_result" false rid [] (some (timeoutMsg "mode GUIDED")))
        ∈ (execute_command env b rid (CommandPayload.takeoff alt)).events
    ∧ (execute_command env b rid (CommandPayload.takeoff alt)).cmds.all
        (fun c => ! c.isArm && ! c.isTakeoffCmd) = true
    ∧ (execute_command env b rid (CommandPayload.takeoff alt)).bridge = b := by
  have hw : (wait_until (fun t => pyUpper (env.stateAt t).mode == "GUIDED") 15 env.mono (1 / 2)).1
      = false :=
    wait_until_go_false_of_never (fun t => pyUpper (env.stateAt t).mode == "GUIDED")
      (env.mono + 15) (1 / 2) (by norm_num) (wait_fuel 15 (1 / 2)) env.mono
      (fun u hu1 hu2 => beq_eq_false_iff_ne.mpr (hnever u hu1 hu2))
  have hflag : Nat.lor 1 ((MODE_EXTRA_FLAGS.lookup "GUIDED").getD 0) = 9 := by decide
  have hsm : set_mode true env.modeMapping "GUIDED"
      = Except.ok [LinkCmd.doSetMode 9 gid, LinkCmd.setModeSend 9 gid] := by
    simp [set_mode, hg, hflag]
  have hseq : ∀ a : ℚ, takeoff_sequence env a
      = ⟨Except.error (timeoutMsg "mode GUIDED"),
         [LinkCmd.doSetMode 9 gid, LinkCmd.setModeSend 9 gid],
         [("TAKEOFF: switching to GUIDED", none)],
         (wait_until (fun t => pyUpper (env.stateAt t).mode == "GUIDED") 15 env.mono (1 / 2)).2⟩ := by
    intro a
    simp only [takeoff_sequence, hm, Bool.not_true, Bool.false_eq_true, if_false, hsm, hw,
      Bool.not_false, if_true]
  have hex : execute_command env b rid (CommandPayload.takeoff alt)
      = ⟨b,
         [OutEvent.result "takeoff_result" false rid [] (some (timeoutMsg "mode GUIDED")),
          OutEvent.logline "error"
            ("Command " ++ typeTag (CommandPayload.takeoff alt) ++ " failed: "
              ++ timeoutMsg "mode GUIDED")],
         [LinkCmd.doSetMode 9 gid, LinkCmd.setModeSend 9 gid],
         [("TAKEOFF: switching to GUIDED", none)]⟩ := by
    simp only [execute_command, handle_command, result_type, hseq, Except.map,
      List.cons_append, List.nil_append]
  rw [hex]
  exact ⟨List.Mem.head _, rfl, rfl⟩

/-- C1 witness: against a snapshot that stays in mode Unknown, a takeoff
request on the initial bridge times out waiting for GUIDED and sends
neither arm nor takeoff. -/
theorem C1_takeoff_timeout_witness :
    (OutEvent.result "takeoff_result" false "r1" [] (some (timeoutMsg "mode GUIDED")))
        ∈ (execute_command envA initBridge "r1" (CommandPayload.takeoff PyNum.absent)).events
    ∧ (execute_command envA initBridge "r1" (CommandPayload.takeoff PyNum.absent)).cmds.all
        (fun c => ! c.isArm && ! c.isTakeoffCmd) = true
    ∧ (execute_command envA initBridge "r1" (CommandPayload.takeoff PyNum.absent)).bridge
        = initBridge := by
  refine C1_takeoff_timeout envA initBridge "r1" PyNum.absent 4 rfl rfl ?_
  intro t h1 h2
  show pyUpper initState.mode ≠ "GUIDED"
  decide
